import Mathlib

/-!
Verification of the Palacios LAPIC emulator
(src/palacios/palacios/src/devices/apic.c) against its natural-language
specification.  The per-LAPIC state, the IRR/ISR/IER/TMR bitmap machinery,
the EOI and begin-IRQ entry points, the IPI router and the timer driver are
embedded as executable Lean functions, translated from the C source.

The 256-bit vector bitmaps (stored in C as 32-byte arrays addressed by a
major byte offset `(irq & ~7) >> 3` and a minor bit offset `irq & 7`) are
modelled as functions `Nat → Bool` indexed by the vector number
`8 * major + minor = irq`.
-/

/-- Delivery modes (apic.c `APIC_*_DELIVERY`). -/
def APIC_FIXED_DELIVERY : Nat := 0x0

def APIC_LOWEST_DELIVERY : Nat := 0x1

def APIC_SMI_DELIVERY : Nat := 0x2

def APIC_RES1_DELIVERY : Nat := 0x3

def APIC_NMI_DELIVERY : Nat := 0x4

def APIC_INIT_DELIVERY : Nat := 0x5

def APIC_SIPI_DELIVERY : Nat := 0x6

def APIC_EXTINT_DELIVERY : Nat := 0x7

/-- Destination shorthands (apic.c `APIC_SHORTHAND_*`). -/
def APIC_SHORTHAND_NONE : Nat := 0x0

def APIC_SHORTHAND_SELF : Nat := 0x1

def APIC_SHORTHAND_ALL : Nat := 0x2

def APIC_SHORTHAND_ALL_BUT_ME : Nat := 0x3

/-- Destination modes (apic.c `APIC_DEST_*`). -/
def APIC_DEST_PHYSICAL : Nat := 0x0

def APIC_DEST_LOGICAL : Nat := 0x1

/-- The per-core IPI lifecycle (apic.c `ipi_state_t`). -/
inductive IpiState where
  | INIT_ST
  | SIPI
  | STARTED
deriving DecidableEq, Repr

/-- Modelled from the spec: the vCPU run states come from vm_guest.h, which
is not among the sources; the spec only requires that a Startup IPI moves the
destination vCPU's run state to RUNNING. -/
inductive CoreRunState where
  | CORE_STOPPED
  | CORE_RUNNING
deriving DecidableEq, Repr

/-- The per-LAPIC state (apic.c `struct apic_state`).  Registers whose C type
is a register struct with a `.val` member are stored as their raw 32-bit
value; the four 256-bit bitmaps are stored as bit-indexed boolean functions;
the attached vCPU (`struct guest_info * core`) is modelled by its run state
and by a record of the last `v3_reset_vm_core` startup vector. -/
structure ApicState where
  base_addr : Nat
  base_addr_msr : Nat
  lapic_id : Nat
  apic_ver : Nat
  task_prio : Nat
  arb_prio : Nat
  proc_prio : Nat
  rem_rd_data : Nat
  log_dst : Nat
  dst_fmt : Nat
  spurious_int : Nat
  err_status : Nat
  int_cmd_lo : Nat
  int_cmd_hi : Nat
  tmr_vec_tbl : Nat
  therm_loc_vec_tbl : Nat
  perf_ctr_loc_vec_tbl : Nat
  lint0_vec_tbl : Nat
  lint1_vec_tbl : Nat
  err_vec_tbl : Nat
  tmr_div_cfg : Nat
  tmr_init_cnt : Nat
  tmr_cur_cnt : Nat
  missed_ints : Nat
  ext_apic_feature : Nat
  ext_apic_ctrl : Nat
  spec_eoi : Nat
  ext_intr_vec_tbl0 : Nat
  ext_intr_vec_tbl1 : Nat
  ext_intr_vec_tbl2 : Nat
  ext_intr_vec_tbl3 : Nat
  eoi : Nat
  ipi_state : IpiState
  int_req_reg : Nat → Bool
  int_svc_reg : Nat → Bool
  int_en_reg : Nat → Bool
  trig_mode_reg : Nat → Bool
  core_run_state : CoreRunState
  core_reset_vector : Option Nat
  irq_queue : List Nat

/-- Bit 11 of the base-address MSR is the APIC-enable bit
(apic.c `struct apic_msr`: 8 reserved bits, bootstrap_cpu, 2 reserved bits,
apic_enable). -/
def apic_msr_enable (msr : Nat) : Bool := msr.testBit 11

/-- Modelled from the spec: the bitfield layout of `struct log_dst_reg` lives
in apic_regs.h, which is not among the sources.  The spec describes the
logical destination as the 8-bit field used for logical-mode matching; in the
xAPIC register it occupies bits 24..31. -/
def log_dst_id (v : Nat) : Nat := (v >>> 24) % 256

/-- Modelled from the spec: the `model` field of `struct dst_fmt_reg` (missing
apic_regs.h); the xAPIC destination-format model is the top nibble,
bits 28..31. -/
def dst_fmt_model (v : Nat) : Nat := (v >>> 28) % 16

/-- Modelled from the spec: local-vector-table entries (missing apic_regs.h)
carry a vector in bits 0..7. -/
def lvt_vec (v : Nat) : Nat := v % 256

/-- Modelled from the spec: the LVT mask bit is bit 16 (the timer LVT is
initialized to 0x00010000, "masked", in both the source and the spec). -/
def lvt_mask (v : Nat) : Bool := v.testBit 16

/-- Modelled from the spec: the LVT delivery-mode (`msg_type`) field occupies
bits 8..10. -/
def lvt_msg_type (v : Nat) : Nat := (v >>> 8) % 8

/-- Modelled from the spec: the timer-mode bit of the timer LVT (one-shot or
periodic) is bit 17. -/
def lvt_tmr_mode (v : Nat) : Nat := (v >>> 17) % 2

def APIC_TMR_ONESHOT : Nat := 0

def APIC_TMR_PERIODIC : Nat := 1

/-- apic.c `init_apic_state` (lines 270..331): the boot processor gets MSR
0x900, application processors 0x800, both or-ed with the default base
address; IRR/ISR/TMR bitmaps cleared; all 32 IER bytes memset to 0xff; the
IPI lifecycle starts at INIT. -/
def init_apic_state (id : Nat) : ApicState where
  base_addr := 0xfee00000
  base_addr_msr := (if id = 0 then 0x900 else 0x800) ||| 0xfee00000
  lapic_id := id
  apic_ver := 0x80050010
  task_prio := 0
  arb_prio := 0
  proc_prio := 0
  rem_rd_data := 0
  log_dst := 0
  dst_fmt := 0xffffffff
  spurious_int := 0xff
  err_status := 0
  int_cmd_lo := 0
  int_cmd_hi := 0
  tmr_vec_tbl := 0x00010000
  therm_loc_vec_tbl := 0x00010000
  perf_ctr_loc_vec_tbl := 0x00010000
  lint0_vec_tbl := 0x00010000
  lint1_vec_tbl := 0x00010000
  err_vec_tbl := 0x00010000
  tmr_div_cfg := 0
  tmr_init_cnt := 0
  tmr_cur_cnt := 0
  missed_ints := 0
  ext_apic_feature := 0x00040007
  ext_apic_ctrl := 0
  spec_eoi := 0
  ext_intr_vec_tbl0 := 0
  ext_intr_vec_tbl1 := 0
  ext_intr_vec_tbl2 := 0
  ext_intr_vec_tbl3 := 0
  eoi := 0
  ipi_state := .INIT_ST
  int_req_reg := fun _ => false
  int_svc_reg := fun _ => false
  int_en_reg := fun i => decide (i < 256)
  trig_mode_reg := fun _ => false
  core_run_state := .CORE_STOPPED
  core_reset_vector := none
  irq_queue := []

/-- apic.c `activate_apic_irq` (lines 388..412): if the IRR bit is already
set the raise coalesces (state unchanged, returns 0); otherwise, if the IER
bit is set, the IRR bit is set and 1 is returned ("newly raised"); otherwise
the request is dropped (returns 0).  The ISR is never consulted. -/
def activate_apic_irq (apic : ApicState) (irq_num : Nat) : ApicState × Nat :=
  if apic.int_req_reg irq_num then
    (apic, 0)
  else if apic.int_en_reg irq_num then
    ({ apic with int_req_reg := fun j => if j = irq_num then true else apic.int_req_reg j }, 1)
  else
    (apic, 0)

/-- apic.c `add_apic_irq_entry` (lines 415..426): vectors below 16 are
rejected with -1; otherwise the vector is enqueued on the LAPIC's IRQ queue
(`v3_enqueue` appends at the tail). -/
def add_apic_irq_entry (apic : ApicState) (irq_num : Nat) : ApicState × Int :=
  if irq_num ≤ 15 then (apic, -1)
  else ({ apic with irq_queue := apic.irq_queue ++ [irq_num] }, 0)

/-- Loop body of apic.c `drain_irq_entries` (lines 428..435): dequeue until
`v3_dequeue` returns the 0 sentinel (which an empty queue also produces) and
activate each dequeued vector. -/
def drain_loop : ApicState → List Nat → ApicState
  | apic, [] => { apic with irq_queue := [] }
  | apic, irq :: rest =>
      if irq = 0 then { apic with irq_queue := rest }
      else drain_loop (activate_apic_irq apic irq).1 rest

def drain_irq_entries (apic : ApicState) : ApicState :=
  drain_loop apic apic.irq_queue

/-- apic.c `get_highest_isr`/`get_highest_irr` (lines 440..480): scan the
32 bytes from the top down, then the bits of a byte from the top down, and
return the first set bit index, or -1 when the bitmap is empty.  This is the
largest set bit index below 256. -/
def get_highest (reg : Nat → Bool) : Int :=
  match (List.range 256).reverse.find? (fun i => reg i) with
  | some i => (i : Int)
  | none => -1

def get_highest_isr (apic : ApicState) : Int := get_highest apic.int_svc_reg

def get_highest_irr (apic : ApicState) : Int := get_highest apic.int_req_reg

/-- apic.c `apic_do_eoi` (lines 485..514): clear the highest set ISR bit; a
spurious EOI (empty ISR) is discarded.  The IRR is never touched. -/
def apic_do_eoi (apic : ApicState) : ApicState :=
  let isr_irq := get_highest_isr apic
  if isr_irq = -1 then apic
  else
    { apic with int_svc_reg := fun j => if (j : Int) = isr_irq then false else apic.int_svc_reg j }

/-- apic.c `apic_begin_irq` (lines 1541..1562): only when the IRR bit for the
vector is set is the vector promoted (ISR bit set, IRR bit cleared);
otherwise the call is ignored. -/
def apic_begin_irq (apic : ApicState) (irq : Nat) : ApicState :=
  if apic.int_req_reg irq then
    { apic with
      int_svc_reg := fun j => if j = irq then true else apic.int_svc_reg j,
      int_req_reg := fun j => if j = irq then false else apic.int_req_reg j }
  else apic

/-- Internal interrupt sources (apic.c `apic_irq_type_t`). -/
inductive ApicIrqType where
  | APIC_TMR_INT
  | APIC_THERM_INT
  | APIC_PERF_INT
  | APIC_LINT0_INT
  | APIC_LINT1_INT
  | APIC_ERR_INT
deriving DecidableEq, Repr

/-- apic.c `activate_internal_irq` (lines 517..572): look up the vector,
delivery mode and mask bit of the source's LVT entry (timer and error force
fixed delivery); a masked source is dropped with success; fixed delivery
enqueues the vector; any other delivery mode fails with -1. -/
def activate_internal_irq (apic : ApicState) (int_type : ApicIrqType) : ApicState × Int :=
  let info : Nat × Nat × Bool :=
    match int_type with
    | .APIC_TMR_INT => (lvt_vec apic.tmr_vec_tbl, APIC_FIXED_DELIVERY, lvt_mask apic.tmr_vec_tbl)
    | .APIC_THERM_INT =>
        (lvt_vec apic.therm_loc_vec_tbl, lvt_msg_type apic.therm_loc_vec_tbl,
         lvt_mask apic.therm_loc_vec_tbl)
    | .APIC_PERF_INT =>
        (lvt_vec apic.perf_ctr_loc_vec_tbl, lvt_msg_type apic.perf_ctr_loc_vec_tbl,
         lvt_mask apic.perf_ctr_loc_vec_tbl)
    | .APIC_LINT0_INT =>
        (lvt_vec apic.lint0_vec_tbl, lvt_msg_type apic.lint0_vec_tbl,
         lvt_mask apic.lint0_vec_tbl)
    | .APIC_LINT1_INT =>
        (lvt_vec apic.lint1_vec_tbl, lvt_msg_type apic.lint1_vec_tbl,
         lvt_mask apic.lint1_vec_tbl)
    | .APIC_ERR_INT => (lvt_vec apic.err_vec_tbl, APIC_FIXED_DELIVERY, lvt_mask apic.err_vec_tbl)
  if info.2.2 = true then (apic, 0)
  else if info.2.1 = APIC_FIXED_DELIVERY then add_apic_irq_entry apic info.1
  else (apic, -1)

/-- The device: the array of per-core LAPICs (apic.c `struct apic_dev_state`;
`num_apics` is the array length). -/
structure ApicDevState where
  apics : List ApicState

def numApics (dev : ApicDevState) : Nat := dev.apics.length

def apicAt (dev : ApicDevState) (i : Nat) : ApicState := dev.apics.getD i (init_apic_state 0)

def setApic (dev : ApicDevState) (i : Nat) (a : ApicState) : ApicDevState := ⟨dev.apics.set i a⟩

/-- An interrupt-command-register snapshot, by fields (apic.c
`struct int_cmd_reg`, bitfield layout in apic_regs.h). -/
structure IntCmdReg where
  vec : Nat
  del_mode : Nat
  dst_mode : Nat
  trig_mode : Nat
  dst_shorthand : Nat
  dst : Nat

/-- Modelled from the spec: the ICR bit layout comes from the missing
apic_regs.h; the spec gives vector (8 bits), delivery mode (3), destination
mode (1), trigger mode, destination shorthand (2) and an 8-bit destination in
the high word (xAPIC positions: bits 8..10, 11, 15, 18..19, 56..63). -/
def icrOfParts (lo hi : Nat) : IntCmdReg where
  vec := lo % 256
  del_mode := (lo >>> 8) % 8
  dst_mode := (lo >>> 11) % 2
  trig_mode := (lo >>> 15) % 2
  dst_shorthand := (lo >>> 18) % 4
  dst := (hi >>> 24) % 256

/-- apic.c `should_deliver_cluster_ipi` (lines 576..603): same cluster (top
nibbles equal) and in the set (bottom nibbles intersect). -/
def should_deliver_cluster_ipi (dst_apic : ApicState) (mda : Nat) : Bool :=
  decide ((mda &&& 0xf0) = (log_dst_id dst_apic.log_dst &&& 0xf0)) &&
    decide (((mda &&& 0x0f) &&& (log_dst_id dst_apic.log_dst &&& 0x0f)) ≠ 0)

/-- apic.c `should_deliver_flat_ipi` (lines 605..631): in the set iff the
logical destination mask intersects the MDA. -/
def should_deliver_flat_ipi (dst_apic : ApicState) (mda : Nat) : Bool :=
  decide ((log_dst_id dst_apic.log_dst &&& mda) ≠ 0)

/-- apic.c `should_deliver_ipi` (lines 635..673): destination-format model
0xf selects flat matching, 0x0 cluster matching, each with an MDA of 0xff
always matching (broadcast); any other model is an error (-1, here none). -/
def should_deliver_ipi (dst_apic : ApicState) (mda : Nat) : Option Bool :=
  if dst_fmt_model dst_apic.dst_fmt = 0xf then
    some (if mda = 0xff then true else should_deliver_flat_ipi dst_apic mda)
  else if dst_fmt_model dst_apic.dst_fmt = 0x0 then
    some (if mda = 0xff then true else should_deliver_cluster_ipi dst_apic mda)
  else none

/-- apic.c `deliver_ipi` (lines 679..779).  Fixed and lowest-priority
delivery enqueue the vector (the -1 of `add_apic_irq_entry` for vectors
below 16 is not checked there); INIT moves an INIT-state LAPIC to SIPI and is
otherwise dropped; SIPI resets the vCPU with the vector, marks it RUNNING and
moves a SIPI-state LAPIC to STARTED, and is otherwise dropped; ExtInt is
ignored with success; SMI/NMI/reserved are unsupported (-1, here none). -/
def deliver_ipi (dst_apic : ApicState) (vector : Nat) (del_mode : Nat) : Option ApicState :=
  if del_mode = APIC_FIXED_DELIVERY ∨ del_mode = APIC_LOWEST_DELIVERY then
    some (add_apic_irq_entry dst_apic vector).1
  else if del_mode = APIC_INIT_DELIVERY then
    if dst_apic.ipi_state ≠ IpiState.INIT_ST then some dst_apic
    else some { dst_apic with ipi_state := .SIPI }
  else if del_mode = APIC_SIPI_DELIVERY then
    if dst_apic.ipi_state ≠ IpiState.SIPI then some dst_apic
    else
      some { dst_apic with
               core_reset_vector := some vector
               core_run_state := .CORE_RUNNING
               ipi_state := .STARTED }
  else if del_mode = APIC_EXTINT_DELIVERY then some dst_apic
  else none

/-- apic.c `find_physical_apic` (lines 781..805): a fast path first (whose
`dst_idx > 0` bound excludes index 0), then an unconditional linear scan that
overwrites the result with the last LAPIC whose identity register equals the
requested destination. -/
def find_physical_apic (dev : ApicDevState) (dst_idx : Nat) : Option Nat :=
  let fast : Option Nat :=
    if 0 < dst_idx ∧ dst_idx < numApics dev ∧ (apicAt dev dst_idx).lapic_id = dst_idx then
      some dst_idx
    else none
  (List.range (numApics dev)).foldl
    (fun acc i => if (apicAt dev i).lapic_id = dst_idx then some i else acc) fast

/-- apic.c `route_ipi`, shorthand none, physical destination (lines
826..844): look up the destination by identity, error if absent, else
deliver. -/
def route_none_physical (dev : ApicDevState) (icr : IntCmdReg) : Option ApicDevState :=
  match find_physical_apic dev icr.dst with
  | none => none
  | some j =>
    match deliver_ipi (apicAt dev j) icr.vec icr.del_mode with
    | none => none
    | some a => some (setApic dev j a)

/-- Loop body of the logical, non-lowest-priority branch of `route_ipi`
(lines 847..875): evaluate the match predicate for each LAPIC, abort on a
predicate error or delivery error, deliver to every matcher. -/
def route_logical_step (mda vec dm : Nat) (acc : Option ApicDevState) (i : Nat) :
    Option ApicDevState :=
  match acc with
  | none => none
  | some d =>
    match should_deliver_ipi (apicAt d i) mda with
    | none => none
    | some false => some d
    | some true =>
      match deliver_ipi (apicAt d i) vec dm with
      | none => none
      | some a => some (setApic d i a)

def route_none_logical_fixed (dev : ApicDevState) (icr : IntCmdReg) : Option ApicDevState :=
  (List.range (numApics dev)).foldl (route_logical_step icr.dst icr.vec icr.del_mode) (some dev)

/-- Loop body of the lowest-priority arbitration scan of `route_ipi` (lines
876..909): among the matchers keep the LAPIC with the strictly smallest
task-priority value (so ties keep the first one encountered). -/
def lowest_step (dev : ApicDevState) (mda : Nat) (acc : Option (Option Nat)) (i : Nat) :
    Option (Option Nat) :=
  match acc with
  | none => none
  | some best =>
    match should_deliver_ipi (apicAt dev i) mda with
    | none => none
    | some false => some best
    | some true =>
      match best with
      | none => some (some i)
      | some b =>
        if (apicAt dev i).task_prio < (apicAt dev b).task_prio then some (some i)
        else some (some b)

/-- apic.c `route_ipi`, shorthand none, logical destination, lowest-priority
delivery (lines 876..922): scan for the best matcher; no matcher at all is a
logged success without delivery. -/
def route_none_logical_lowest (dev : ApicDevState) (icr : IntCmdReg) : Option ApicDevState :=
  match (List.range (numApics dev)).foldl (lowest_step dev icr.dst) (some none) with
  | none => none
  | some none => some dev
  | some (some j) =>
    match deliver_ipi (apicAt dev j) icr.vec icr.del_mode with
    | none => none
    | some a => some (setApic dev j a)

/-- apic.c `route_ipi`, shorthands all and all-but-me (lines 952..969):
deliver to every LAPIC, skipping the source only for all-but-me (a NULL
source is distinct from every LAPIC, so nothing is skipped then). -/
def route_all (dev : ApicDevState) (src : Option Nat) (icr : IntCmdReg) : Option ApicDevState :=
  (List.range (numApics dev)).foldl
    (fun acc i =>
      match acc with
      | none => none
      | some d =>
        if src ≠ some i ∨ icr.dst_shorthand = APIC_SHORTHAND_ALL then
          match deliver_ipi (apicAt d i) icr.vec icr.del_mode with
          | none => none
          | some a => some (setApic d i a)
        else some d)
    (some dev)

/-- apic.c `route_ipi` (lines 808..977).  The source LAPIC is identified by
its array index, `none` standing for the NULL pointer of a synthetic sender.
Note the self-shorthand branch with a NULL source: it logs an error and then
merely breaks out of the switch, so the function returns 0 (success) with no
delivery; the physical and logical sub-branches of self both deliver to the
source.  An out-of-range shorthand is an error, but the shorthand field is
two bits wide. -/
def route_ipi (dev : ApicDevState) (src : Option Nat) (icr : IntCmdReg) : Option ApicDevState :=
  if icr.dst_shorthand = APIC_SHORTHAND_NONE then
    if icr.dst_mode = APIC_DEST_PHYSICAL then route_none_physical dev icr
    else if icr.dst_mode = APIC_DEST_LOGICAL then
      if icr.del_mode ≠ APIC_LOWEST_DELIVERY then route_none_logical_fixed dev icr
      else route_none_logical_lowest dev icr
    else some dev
  else if icr.dst_shorthand = APIC_SHORTHAND_SELF then
    match src with
    | none => some dev
    | some s =>
      match deliver_ipi (apicAt dev s) icr.vec icr.del_mode with
      | none => none
      | some a => some (setApic dev s a)
  else if icr.dst_shorthand = APIC_SHORTHAND_ALL ∨
          icr.dst_shorthand = APIC_SHORTHAND_ALL_BUT_ME then
    route_all dev src icr
  else none

/-- The ICR-equivalent payload of the synthetic IPI API (apic.h
`struct v3_gen_ipi`, fields as used by `v3_apic_send_ipi`). -/
structure V3GenIpi where
  vector : Nat
  mode : Nat
  logical : Nat
  trigger_mode : Nat
  dst_shorthand : Nat
  dst : Nat

/-- apic.c `v3_apic_send_ipi` (lines 1501..1518): build an ICR from the
payload and route it with a NULL source. -/
def v3_apic_send_ipi (dev : ApicDevState) (ipi : V3GenIpi) : Option ApicDevState :=
  route_ipi dev none
    { vec := ipi.vector
      del_mode := ipi.mode
      dst_mode := ipi.logical
      trig_mode := ipi.trigger_mode
      dst_shorthand := ipi.dst_shorthand
      dst := ipi.dst }

/-- apic.c `apic_intr_pending` (lines 1459..1480): drain the queue into the
IRR, then pending iff the highest IRR vector exists and exceeds the highest
ISR vector.  The drained state is returned alongside the flag. -/
def apic_intr_pending (apic : ApicState) : ApicState × Bool :=
  let a := drain_irq_entries apic
  let req_irq := get_highest_irr a
  let svc_irq := get_highest_isr a
  (a, decide (0 ≤ req_irq) && decide (svc_irq < req_irq))

/-- apic.c `apic_get_intr_number` (lines 1484..1497). -/
def apic_get_intr_number (apic : ApicState) : Int :=
  let req_irq := get_highest_irr apic
  let svc_irq := get_highest_isr apic
  if svc_irq = -1 then req_irq
  else if svc_irq < req_irq then req_irq
  else -1

/-- apic.c `apic_inject_timer_intr` (lines 1567..1588): the pending check is
made for a debug message but drains the queue as a side effect; then the
timer's internal IRQ is activated (its error result is only logged). -/
def apic_inject_timer_intr (apic : ApicState) : ApicState :=
  let a := (apic_intr_pending apic).1
  (activate_internal_irq a .APIC_TMR_INT).1

/-- Modelled from the spec: the `APIC_TMR_DIVx` divide-configuration
constants come from the missing apic_regs.h; the spec says the 3-bit selector
maps to right-shifts 0..7.  Standard xAPIC encoding (selector bits 0, 1
and 3): 0xB divides by 1 (shift 0), 0x0 by 2, ... 0xA by 128 (shift 7);
anything else is an invalid divider (logged, timer update returns). -/
def shiftOfDiv : Nat → Option Nat
  | 0x0 => some 1
  | 0x1 => some 2
  | 0x2 => some 3
  | 0x3 => some 4
  | 0x8 => some 5
  | 0x9 => some 6
  | 0xA => some 7
  | 0xB => some 0
  | _ => none

/-- apic.c `apic_update_time` (lines 1593..1680).  A zero initial count, or a
one-shot timer that already reached zero, is a no-op.  `tmr_div` is the low
byte of the divide-configuration register.  When the elapsed ticks reach the
current count the timer vector is injected once and, in periodic mode, the
counter is reloaded and the overflowed periods accumulate in `missed_ints`
(a uint32).  The `V3_CONFIG_APIC_ENQUEUE_MISSED_TMR_IRQS` catch-up block in
the under-run branch is compiled out in this configuration. -/
def apic_update_time (apic : ApicState) (cpu_cycles : Nat) : ApicState :=
  if apic.tmr_init_cnt = 0 ∨
      (lvt_tmr_mode apic.tmr_vec_tbl = APIC_TMR_ONESHOT ∧ apic.tmr_cur_cnt = 0) then
    apic
  else
    match shiftOfDiv (apic.tmr_div_cfg % 256) with
    | none => apic
    | some shift_num =>
      let tmr_ticks := cpu_cycles >>> shift_num
      if tmr_ticks < apic.tmr_cur_cnt then
        { apic with tmr_cur_cnt := apic.tmr_cur_cnt - tmr_ticks }
      else
        let t := tmr_ticks - apic.tmr_cur_cnt
        let a := apic_inject_timer_intr { apic with tmr_cur_cnt := 0 }
        if lvt_tmr_mode apic.tmr_vec_tbl = APIC_TMR_PERIODIC then
          { a with
              tmr_cur_cnt := apic.tmr_init_cnt - t % apic.tmr_init_cnt
              missed_ints := (a.missed_ints + t / apic.tmr_init_cnt) % 2 ^ 32 }
        else a

/-- Register offsets within the 4 KiB bank (apic.c `*_OFFSET`). -/
def APIC_ID_OFFSET : Nat := 0x020

def APIC_VERSION_OFFSET : Nat := 0x030

def TPR_OFFSET : Nat := 0x080

def APR_OFFSET : Nat := 0x090

def PPR_OFFSET : Nat := 0x0a0

def EOI_OFFSET : Nat := 0x0b0

def REMOTE_READ_OFFSET : Nat := 0x0c0

def LDR_OFFSET : Nat := 0x0d0

def DFR_OFFSET : Nat := 0x0e0

def SPURIOUS_INT_VEC_OFFSET : Nat := 0x0f0

def ESR_OFFSET : Nat := 0x280

def INT_CMD_LO_OFFSET : Nat := 0x300

def INT_CMD_HI_OFFSET : Nat := 0x310

def TMR_LOC_VEC_TBL_OFFSET : Nat := 0x320

def THERM_LOC_VEC_TBL_OFFSET : Nat := 0x330

def PERF_CTR_LOC_VEC_TBL_OFFSET : Nat := 0x340

def LINT0_VEC_TBL_OFFSET : Nat := 0x350

def LINT1_VEC_TBL_OFFSET : Nat := 0x360

def ERR_VEC_TBL_OFFSET : Nat := 0x370

def TMR_INIT_CNT_OFFSET : Nat := 0x380

def TMR_CUR_CNT_OFFSET : Nat := 0x390

def TMR_DIV_CFG_OFFSET : Nat := 0x3e0

def EXT_APIC_FEATURE_OFFSET : Nat := 0x400

def EXT_APIC_CMD_OFFSET : Nat := 0x410

def SEOI_OFFSET : Nat := 0x420

/-- The write cases of apic.c `apic_write` lines 1272..1300 that only log a
read-only diagnostic and fall through to the success return: remote read,
version, APR, the eight IRR, ISR and TMR subwords, PPR and the extended
feature register.  The timer current count (0x390) is NOT among them. -/
def write_read_only_offsets : List Nat :=
  [0x0c0, 0x030, 0x090,
   0x200, 0x210, 0x220, 0x230, 0x240, 0x250, 0x260, 0x270,
   0x100, 0x110, 0x120, 0x130, 0x140, 0x150, 0x160, 0x170,
   0x180, 0x190, 0x1a0, 0x1b0, 0x1c0, 0x1d0, 0x1e0, 0x1f0,
   0x0a0, 0x400]

/-- Write one 32-bit subword of the 256-bit IER, as the C
`*(uint32_t *)(apic->int_en_reg + 4*k) = op_val` does. -/
def setIERSubword (reg : Nat → Bool) (k : Nat) (op_val : Nat) : Nat → Bool :=
  fun j => if 32 * k ≤ j ∧ j < 32 * k + 32 then op_val.testBit (j - 32 * k) else reg j

/-- apic.c `apic_write` (lines 1244..1452), at device level so that the
ICR-low write can trigger routing (the source being the writing core's own
LAPIC).  Returns `none` for the -1 error paths (disabled APIC, non-4-byte
length, unhandled register, routing failure); every other path returns the
updated device (the C returns `length`).  Writes to the registers listed in
`write_read_only_offsets` only log and leave the state unchanged. -/
def apic_write (dev : ApicDevState) (core_idx reg_addr op_val length : Nat) :
    Option ApicDevState :=
  let apic := apicAt dev core_idx
  if apic_msr_enable apic.base_addr_msr = false then none
  else if length ≠ 4 then none
  else if reg_addr ∈ write_read_only_offsets then some dev
  else if reg_addr = APIC_ID_OFFSET then some (setApic dev core_idx { apic with lapic_id := op_val })
  else if reg_addr = TPR_OFFSET then some (setApic dev core_idx { apic with task_prio := op_val })
  else if reg_addr = LDR_OFFSET then some (setApic dev core_idx { apic with log_dst := op_val })
  else if reg_addr = DFR_OFFSET then some (setApic dev core_idx { apic with dst_fmt := op_val })
  else if reg_addr = SPURIOUS_INT_VEC_OFFSET then
    some (setApic dev core_idx { apic with spurious_int := op_val })
  else if reg_addr = ESR_OFFSET then some (setApic dev core_idx { apic with err_status := op_val })
  else if reg_addr = TMR_LOC_VEC_TBL_OFFSET then
    some (setApic dev core_idx { apic with tmr_vec_tbl := op_val })
  else if reg_addr = THERM_LOC_VEC_TBL_OFFSET then
    some (setApic dev core_idx { apic with therm_loc_vec_tbl := op_val })
  else if reg_addr = PERF_CTR_LOC_VEC_TBL_OFFSET then
    some (setApic dev core_idx { apic with perf_ctr_loc_vec_tbl := op_val })
  else if reg_addr = LINT0_VEC_TBL_OFFSET then
    some (setApic dev core_idx { apic with lint0_vec_tbl := op_val })
  else if reg_addr = LINT1_VEC_TBL_OFFSET then
    some (setApic dev core_idx { apic with lint1_vec_tbl := op_val })
  else if reg_addr = ERR_VEC_TBL_OFFSET then
    some (setApic dev core_idx { apic with err_vec_tbl := op_val })
  else if reg_addr = TMR_INIT_CNT_OFFSET then
    some (setApic dev core_idx { apic with tmr_init_cnt := op_val, tmr_cur_cnt := op_val })
  else if reg_addr = TMR_CUR_CNT_OFFSET then
    some (setApic dev core_idx { apic with tmr_cur_cnt := op_val })
  else if reg_addr = TMR_DIV_CFG_OFFSET then
    some (setApic dev core_idx { apic with tmr_div_cfg := op_val })
  else if reg_addr = 0x480 then
    some (setApic dev core_idx { apic with int_en_reg := setIERSubword apic.int_en_reg 0 op_val })
  else if reg_addr = 0x490 then
    some (setApic dev core_idx { apic with int_en_reg := setIERSubword apic.int_en_reg 1 op_val })
  else if reg_addr = 0x4a0 then
    some (setApic dev core_idx { apic with int_en_reg := setIERSubword apic.int_en_reg 2 op_val })
  else if reg_addr = 0x4b0 then
    some (setApic dev core_idx { apic with int_en_reg := setIERSubword apic.int_en_reg 3 op_val })
  else if reg_addr = 0x4c0 then
    some (setApic dev core_idx { apic with int_en_reg := setIERSubword apic.int_en_reg 4 op_val })
  else if reg_addr = 0x4d0 then
    some (setApic dev core_idx { apic with int_en_reg := setIERSubword apic.int_en_reg 5 op_val })
  else if reg_addr = 0x4e0 then
    some (setApic dev core_idx { apic with int_en_reg := setIERSubword apic.int_en_reg 6 op_val })
  else if reg_addr = 0x4f0 then
    some (setApic dev core_idx { apic with int_en_reg := setIERSubword apic.int_en_reg 7 op_val })
  else if reg_addr = 0x500 then
    some (setApic dev core_idx { apic with ext_intr_vec_tbl0 := op_val })
  else if reg_addr = 0x510 then
    some (setApic dev core_idx { apic with ext_intr_vec_tbl1 := op_val })
  else if reg_addr = 0x520 then
    some (setApic dev core_idx { apic with ext_intr_vec_tbl2 := op_val })
  else if reg_addr = 0x530 then
    some (setApic dev core_idx { apic with ext_intr_vec_tbl3 := op_val })
  else if reg_addr = EOI_OFFSET then some (setApic dev core_idx (apic_do_eoi apic))
  else if reg_addr = INT_CMD_LO_OFFSET then
    let a := { apic with int_cmd_lo := op_val }
    route_ipi (setApic dev core_idx a) (some core_idx) (icrOfParts op_val a.int_cmd_hi)
  else if reg_addr = INT_CMD_HI_OFFSET then
    some (setApic dev core_idx { apic with int_cmd_hi := op_val })
  else none

/-- Read one 32-bit subword of a 256-bit bitmap, as the C
`*(uint32_t *)(reg + 4*k)` does. -/
def subword32 (reg : Nat → Bool) (k : Nat) : Nat :=
  (List.range 32).foldl (fun acc j => acc + if reg (32 * k + j) then 2 ^ j else 0) 0

/-- The register-value switch of apic.c `apic_read` (lines 1005..1209),
dispatching on `reg_addr & ~0x3`.  EOI reads return the zero the C leaves in
`val`; unhandled offsets (including the extended-APIC feature, command and
SEOI registers, which fall into the default case) return -1, here none. -/
def apic_read_reg (apic : ApicState) (reg_addr : Nat) : Option Nat :=
  let r := reg_addr - reg_addr % 4
  if r = EOI_OFFSET then some 0
  else if r = APIC_ID_OFFSET then some apic.lapic_id
  else if r = APIC_VERSION_OFFSET then some apic.apic_ver
  else if r = TPR_OFFSET then some apic.task_prio
  else if r = APR_OFFSET then some apic.arb_prio
  else if r = PPR_OFFSET then some apic.proc_prio
  else if r = REMOTE_READ_OFFSET then some apic.rem_rd_data
  else if r = LDR_OFFSET then some apic.log_dst
  else if r = DFR_OFFSET then some apic.dst_fmt
  else if r = SPURIOUS_INT_VEC_OFFSET then some apic.spurious_int
  else if r = ESR_OFFSET then some apic.err_status
  else if r = TMR_LOC_VEC_TBL_OFFSET then some apic.tmr_vec_tbl
  else if r = LINT0_VEC_TBL_OFFSET then some apic.lint0_vec_tbl
  else if r = LINT1_VEC_TBL_OFFSET then some apic.lint1_vec_tbl
  else if r = ERR_VEC_TBL_OFFSET then some apic.err_vec_tbl
  else if r = TMR_INIT_CNT_OFFSET then some apic.tmr_init_cnt
  else if r = TMR_DIV_CFG_OFFSET then some apic.tmr_div_cfg
  else if 0x480 ≤ r ∧ r ≤ 0x4f0 ∧ r % 16 = 0 then
    some (subword32 apic.int_en_reg ((r - 0x480) / 16))
  else if 0x100 ≤ r ∧ r ≤ 0x170 ∧ r % 16 = 0 then
    some (subword32 apic.int_svc_reg ((r - 0x100) / 16))
  else if 0x180 ≤ r ∧ r ≤ 0x1f0 ∧ r % 16 = 0 then
    some (subword32 apic.trig_mode_reg ((r - 0x180) / 16))
  else if 0x200 ≤ r ∧ r ≤ 0x270 ∧ r % 16 = 0 then
    some (subword32 apic.int_req_reg ((r - 0x200) / 16))
  else if r = TMR_CUR_CNT_OFFSET then some apic.tmr_cur_cnt
  else if r = THERM_LOC_VEC_TBL_OFFSET then some apic.therm_loc_vec_tbl
  else if r = PERF_CTR_LOC_VEC_TBL_OFFSET then some apic.perf_ctr_loc_vec_tbl
  else if r = INT_CMD_LO_OFFSET then some apic.int_cmd_lo
  else if r = INT_CMD_HI_OFFSET then some apic.int_cmd_hi
  else if r = 0x500 then some apic.ext_intr_vec_tbl0
  else if r = 0x510 then some apic.ext_intr_vec_tbl1
  else if r = 0x520 then some apic.ext_intr_vec_tbl2
  else if r = 0x530 then some apic.ext_intr_vec_tbl3
  else none

/-- apic.c `apic_read` (lines 981..1238): fails when the APIC is disabled;
1-byte reads return the addressed byte of the register value, 2-byte reads
whose byte offset is not 3 return a 16-bit slice (the C actually indexes
`(uint16_t *)&val + byte_addr`, which for byte offset 2 reads past `val`;
modelled as the corresponding shift, which yields 0 there), 4-byte reads
return the whole value, and any other length fails. -/
def apic_read (apic : ApicState) (reg_addr : Nat) (length : Nat) : Option Nat :=
  if apic_msr_enable apic.base_addr_msr = false then none
  else
    match apic_read_reg apic reg_addr with
    | none => none
    | some val =>
      if length = 1 then some ((val >>> (8 * (reg_addr % 4))) % 256)
      else if length = 2 ∧ reg_addr % 4 ≠ 3 then some ((val >>> (16 * (reg_addr % 4))) % 65536)
      else if length = 4 then some val
      else none

/-- The boolean value of the logical match predicate on a LAPIC whose
destination-format model is valid (flat 0xf or cluster 0x0): broadcast MDA
0xff always matches, flat matching for model 0xf, cluster matching for
model 0x0. -/
def matchesMDA (a : ApicState) (mda : Nat) : Bool :=
  if mda = 0xff then true
  else if dst_fmt_model a.dst_fmt = 0xf then should_deliver_flat_ipi a mda
  else should_deliver_cluster_ipi a mda

/-- Index `j` is the first-encountered LAPIC among the matchers of `mda`
below `k` with the smallest task-priority value. -/
def FirstMinMatcher (dev : ApicDevState) (mda k j : Nat) : Prop :=
  j < k ∧ matchesMDA (apicAt dev j) mda = true ∧
    (∀ i < k, matchesMDA (apicAt dev i) mda = true →
      (apicAt dev j).task_prio ≤ (apicAt dev i).task_prio) ∧
    (∀ i < j, matchesMDA (apicAt dev i) mda = true →
      (apicAt dev j).task_prio < (apicAt dev i).task_prio)

/-- Invariant of the lowest-priority arbitration scan after the first `k`
LAPICs have been examined. -/
def LowestInv (dev : ApicDevState) (mda k : Nat) (best : Option Nat) : Prop :=
  match best with
  | none => ∀ i < k, matchesMDA (apicAt dev i) mda = false
  | some j => FirstMinMatcher dev mda k j

/-- A single-LAPIC device (one core, identity 0 at index 0). -/
def dev1 : ApicDevState := ⟨[init_apic_state 0]⟩

/-- A two-LAPIC device fresh out of initialization. -/
def dev2 : ApicDevState := ⟨[init_apic_state 0, init_apic_state 1]⟩

/-- A freshly initialized LAPIC whose logical destination id is 0x01
(register value 0x01000000). -/
def lowApic (i : Nat) : ApicState := { init_apic_state i with log_dst := 0x01000000 }

/-- Two LAPICs that both match MDA 0x01 in flat mode, both with task
priority 0. -/
def dev6 : ApicDevState := ⟨[lowApic 0, lowApic 1]⟩

/-- A LAPIC with a periodic, unmasked timer: vector 0x20, LVT value 0x20020
(periodic bit 17, mask clear), divide-by-1 configuration 0xB,
initial = current = 1000. -/
def tapic : ApicState :=
  { init_apic_state 0 with
      tmr_init_cnt := 1000
      tmr_cur_cnt := 1000
      tmr_vec_tbl := 0x20020
      tmr_div_cfg := 0xB }

/-- ICR: fixed delivery of vector 0x40, physical destination 0, no
shorthand. -/
def icr_phys0 : IntCmdReg :=
  { vec := 0x40, del_mode := 0, dst_mode := 0, trig_mode := 0, dst_shorthand := 0, dst := 0 }

/-- ICR: lowest-priority delivery of vector 0x50, logical destination
MDA 0x01, no shorthand. -/
def icr_low1 : IntCmdReg :=
  { vec := 0x50, del_mode := 1, dst_mode := 1, trig_mode := 0, dst_shorthand := 0, dst := 1 }

/-- A synthetic IPI payload using the self shorthand. -/
def ipi_self : V3GenIpi :=
  { vector := 0x40, mode := 0, logical := 0, trigger_mode := 0, dst_shorthand := 1, dst := 0 }

/-- C1, counterexample.  From a fresh LAPIC: raise vector 32, promote it with
begin-IRQ (IRR[32] moves to ISR[32]), then raise 32 again.  The claim says
the re-raise must not produce a state with both bits set, but
`activate_apic_irq` checks only the IRR coalesce and the IER mask, so the
resulting state has IRR[32] and ISR[32] both set. -/
theorem C1_counterexample :
    (activate_apic_irq (apic_begin_irq (activate_apic_irq (init_apic_state 0) 32).1 32)
        32).1.int_req_reg 32 = true ∧
      (activate_apic_irq (apic_begin_irq (activate_apic_irq (init_apic_state 0) 32).1 32)
        32).1.int_svc_reg 32 = true := by
  constructor <;> decide

/-- C1, amended: raising a vector that is currently in service (ISR bit set,
IRR bit clear, IER bit set) always leaves both the IRR bit and the ISR bit
set, because the raise consults only the IRR and the IER.  In particular
raising v again after begin(v) has moved it to ISR produces a state with both
bits set, so the claimed disjointness invariant does not hold across raises
of in-service vectors. -/
theorem C1_raise_in_service (s : ApicState) (v : Nat)
    (hen : s.int_en_reg v = true) (hreq : s.int_req_reg v = false)
    (hsvc : s.int_svc_reg v = true) :
    (activate_apic_irq s v).1.int_req_reg v = true ∧
      (activate_apic_irq s v).1.int_svc_reg v = true := by
  simp [activate_apic_irq, hreq, hen, hsvc]

/-- Witness for C1's amended theorem at vector 48 on a fresh LAPIC after
raise and begin. -/
theorem C1_raise_in_service_witness :
    (activate_apic_irq (apic_begin_irq (activate_apic_irq (init_apic_state 0) 48).1 48)
        48).1.int_req_reg 48 = true ∧
      (activate_apic_irq (apic_begin_irq (activate_apic_irq (init_apic_state 0) 48).1 48)
        48).1.int_svc_reg 48 = true :=
  C1_raise_in_service _ 48 (by decide) (by decide) (by decide)

/-- C3: the IPI lifecycle.  INIT delivery moves an INIT-state LAPIC to SIPI
and drops otherwise (state unchanged); Startup delivery moves a SIPI-state
LAPIC to STARTED, recording the vCPU reset with the ICR vector and the
RUNNING run state, and drops otherwise; hence INIT then Startup from INIT
ends STARTED, and Startup then INIT from STARTED changes nothing. -/
theorem C3_ipi_lifecycle (a : ApicState) (vec vec2 : Nat) :
    (a.ipi_state = IpiState.INIT_ST →
        deliver_ipi a vec APIC_INIT_DELIVERY = some { a with ipi_state := .SIPI }) ∧
      (a.ipi_state ≠ IpiState.INIT_ST → deliver_ipi a vec APIC_INIT_DELIVERY = some a) ∧
      (a.ipi_state = IpiState.SIPI →
        deliver_ipi a vec APIC_SIPI_DELIVERY =
          some { a with
                   ipi_state := .STARTED
                   core_run_state := .CORE_RUNNING
                   core_reset_vector := some vec }) ∧
      (a.ipi_state ≠ IpiState.SIPI → deliver_ipi a vec APIC_SIPI_DELIVERY = some a) ∧
      (a.ipi_state = IpiState.INIT_ST →
        (deliver_ipi a vec APIC_INIT_DELIVERY).bind
            (fun a1 => deliver_ipi a1 vec2 APIC_SIPI_DELIVERY) =
          some { a with
                   ipi_state := .STARTED
                   core_run_state := .CORE_RUNNING
                   core_reset_vector := some vec2 }) ∧
      (a.ipi_state = IpiState.STARTED →
        (deliver_ipi a vec APIC_SIPI_DELIVERY).bind
            (fun a1 => deliver_ipi a1 vec2 APIC_INIT_DELIVERY) = some a) := by
  refine ⟨fun h => ?_, fun h => ?_, fun h => ?_, fun h => ?_, fun h => ?_, fun h => ?_⟩ <;>
    simp [deliver_ipi, APIC_INIT_DELIVERY, APIC_SIPI_DELIVERY, APIC_FIXED_DELIVERY,
      APIC_LOWEST_DELIVERY, APIC_EXTINT_DELIVERY, h]

/-- Witness for C3: from a fresh (INIT-state) LAPIC, INIT then Startup with
vector 0x12 ends in STARTED with the vCPU reset recorded. -/
theorem C3_ipi_lifecycle_witness :
    deliver_ipi (init_apic_state 1) 0 APIC_INIT_DELIVERY =
        some { init_apic_state 1 with ipi_state := .SIPI } ∧
      (deliver_ipi (init_apic_state 1) 0 APIC_INIT_DELIVERY).bind
          (fun a1 => deliver_ipi a1 0x12 APIC_SIPI_DELIVERY) =
        some { init_apic_state 1 with
                 ipi_state := .STARTED
                 core_run_state := .CORE_RUNNING
                 core_reset_vector := some 0x12 } :=
  ⟨(C3_ipi_lifecycle (init_apic_state 1) 0 0x12).1 rfl,
   (C3_ipi_lifecycle (init_apic_state 1) 0 0x12).2.2.2.2.1 rfl⟩

/-- C5: a raise whose IRR bit is already set coalesces (the returned pair is
literally the unchanged state with result 0); a raise with the IRR bit clear
and the IER bit set sets exactly that IRR bit and reports 1 ("newly
raised"); consequently a second raise of the same vector without an
intervening begin coalesces. -/
theorem C5_raise_coalesce (s : ApicState) (v : Nat) :
    (s.int_req_reg v = true → activate_apic_irq s v = (s, 0)) ∧
      (s.int_req_reg v = false → s.int_en_reg v = true →
        activate_apic_irq s v =
            ({ s with int_req_reg := fun j => if j = v then true else s.int_req_reg j }, 1) ∧
          activate_apic_irq (activate_apic_irq s v).1 v = ((activate_apic_irq s v).1, 0)) := by
  refine ⟨fun h => by simp [activate_apic_irq, h], fun h he => ?_⟩
  have h1 : activate_apic_irq s v =
      ({ s with int_req_reg := fun j => if j = v then true else s.int_req_reg j }, 1) := by
    simp [activate_apic_irq, h, he]
  refine ⟨h1, ?_⟩
  rw [h1]
  simp [activate_apic_irq]

/-- Witness for C5 at vector 32 on a fresh LAPIC. -/
theorem C5_raise_coalesce_witness :
    activate_apic_irq (init_apic_state 0) 32 =
        ({ init_apic_state 0 with
             int_req_reg := fun j => if j = 32 then true else (init_apic_state 0).int_req_reg j },
          1) ∧
      activate_apic_irq (activate_apic_irq (init_apic_state 0) 32).1 32 =
        ((activate_apic_irq (init_apic_state 0) 32).1, 0) :=
  (C5_raise_coalesce (init_apic_state 0) 32).2 (by decide) (by decide)

/-- C8, counterexample.  Routing a self-shorthand IPI from the synthetic
(NULL-source) sender on a fresh two-LAPIC device does not return an error:
the code logs and breaks out of the switch, returning success with the device
unchanged (so no vector is delivered, but the claimed error is absent). -/
theorem C8_counterexample :
    v3_apic_send_ipi dev2 ipi_self = some dev2 ∧ v3_apic_send_ipi dev2 ipi_self ≠ none := by
  have h : v3_apic_send_ipi dev2 ipi_self = some dev2 := rfl
  exact ⟨h, by rw [h]; simp⟩

/-- C8, amended: a self-shorthand IPI with a NULL source is dropped: the
router logs the problem and returns success (0) with every LAPIC unchanged;
no vector is delivered anywhere. -/
theorem C8_null_source_self (dev : ApicDevState) (ipi : V3GenIpi)
    (hsh : ipi.dst_shorthand = APIC_SHORTHAND_SELF) :
    v3_apic_send_ipi dev ipi = some dev := by
  simp [v3_apic_send_ipi, route_ipi, hsh, APIC_SHORTHAND_SELF, APIC_SHORTHAND_NONE]

/-- Witness for C8's amended theorem on the fresh two-LAPIC device. -/
theorem C8_null_source_self_witness : v3_apic_send_ipi dev2 ipi_self = some dev2 :=
  C8_null_source_self dev2 ipi_self rfl

/-- C10: per-LAPIC initialization sets all 256 IER bits (the C memsets the
32 IER bytes to 0xff), so a raise of any vector on the fresh state is
reported as newly raised, never dropped by the enable mask. -/
theorem C10_init_ier_all_set (id v : Nat) (hv : v < 256) :
    (init_apic_state id).int_en_reg v = true ∧
      (15 < v →
        activate_apic_irq (init_apic_state id) v =
          ({ init_apic_state id with
               int_req_reg := fun j =>
                 if j = v then true else (init_apic_state id).int_req_reg j },
            1)) := by
  constructor
  · simp [init_apic_state, hv]
  · intro _
    simp [activate_apic_irq, init_apic_state, hv]

/-- Witness for C10 at vector 0x40 on core 3. -/
theorem C10_init_ier_all_set_witness :
    (init_apic_state 3).int_en_reg 0x40 = true ∧
      (15 < 0x40 →
        activate_apic_irq (init_apic_state 3) 0x40 =
          ({ init_apic_state 3 with
               int_req_reg := fun j =>
                 if j = 0x40 then true else (init_apic_state 3).int_req_reg j },
            1)) :=
  C10_init_ier_all_set 3 0x40 (by decide)

/-- C4: for a vector with its IER bit set and both IRR and ISR bits clear,
raising it, promoting it with begin-IRQ and then performing an EOI (the
vector being the highest set ISR bit at that point) leaves both the IRR bit
and the ISR bit clear. -/
theorem C4_raise_begin_eoi (s : ApicState) (v : Nat) (hv : 15 < v)
    (hen : s.int_en_reg v = true) (hreq : s.int_req_reg v = false)
    (hsvc : s.int_svc_reg v = false)
    (hhigh : get_highest_isr (apic_begin_irq (activate_apic_irq s v).1 v) = (v : Int)) :
    (apic_do_eoi (apic_begin_irq (activate_apic_irq s v).1 v)).int_req_reg v = false ∧
      (apic_do_eoi (apic_begin_irq (activate_apic_irq s v).1 v)).int_svc_reg v = false := by
  have h1 : (activate_apic_irq s v).1 =
      { s with int_req_reg := fun j => if j = v then true else s.int_req_reg j } := by
    simp [activate_apic_irq, hreq, hen]
  have hreq2 : (apic_begin_irq (activate_apic_irq s v).1 v).int_req_reg v = false := by
    rw [h1]; simp [apic_begin_irq]
  have hvne : ¬ ((v : Int) = -1) := by omega
  have heoi : apic_do_eoi (apic_begin_irq (activate_apic_irq s v).1 v) =
      { apic_begin_irq (activate_apic_irq s v).1 v with
          int_svc_reg := fun j =>
            if (j : Int) = (v : Int) then false
            else (apic_begin_irq (activate_apic_irq s v).1 v).int_svc_reg j } := by
    rw [apic_do_eoi, hhigh, if_neg hvne]
  rw [heoi]
  exact ⟨hreq2, by simp⟩

/-- Witness for C4 at vector 0x40 on a fresh LAPIC, where 0x40 is indeed the
highest in-service vector after raise and begin. -/
theorem C4_raise_begin_eoi_witness :
    (apic_do_eoi (apic_begin_irq (activate_apic_irq (init_apic_state 0) 0x40).1
        0x40)).int_req_reg 0x40 = false ∧
      (apic_do_eoi (apic_begin_irq (activate_apic_irq (init_apic_state 0) 0x40).1
        0x40)).int_svc_reg 0x40 = false :=
  C4_raise_begin_eoi (init_apic_state 0) 0x40 (by decide) (by decide) (by decide) (by decide)
    (by decide)

/-- C9, counterexample.  On a fresh single-LAPIC device a 4-byte guest write
of 123 to offset 0x390 (timer current count) is not ignored: the write
succeeds and the value observable at 0x390 changes from 0 to 123, so the
register is writable rather than read-only in this code. -/
theorem C9_counterexample :
    (apic_write dev1 0 0x390 123 4).map (fun d => apic_read (apicAt d 0) 0x390 4) =
        some (some 123) ∧
      apic_read (apicAt dev1 0) 0x390 4 = some 0 := by
  constructor <;> rfl

/-- C9, amended: a 4-byte guest write to offset 0x390 on an enabled LAPIC is
accepted (no ReadOnly diagnostic): it sets the timer current count to the
written value and returns success, and a subsequent 4-byte read at 0x390
returns the written value. -/
theorem C9_write_cur_cnt (dev : ApicDevState) (i val : Nat)
    (hen : apic_msr_enable (apicAt dev i).base_addr_msr = true) :
    apic_write dev i 0x390 val 4 =
        some (setApic dev i { apicAt dev i with tmr_cur_cnt := val }) ∧
      apic_read { apicAt dev i with tmr_cur_cnt := val } 0x390 4 = some val := by
  constructor
  · simp [apic_write, hen, write_read_only_offsets, APIC_ID_OFFSET, TPR_OFFSET, LDR_OFFSET,
      DFR_OFFSET, SPURIOUS_INT_VEC_OFFSET, ESR_OFFSET, TMR_LOC_VEC_TBL_OFFSET,
      THERM_LOC_VEC_TBL_OFFSET, PERF_CTR_LOC_VEC_TBL_OFFSET, LINT0_VEC_TBL_OFFSET,
      LINT1_VEC_TBL_OFFSET, ERR_VEC_TBL_OFFSET, TMR_INIT_CNT_OFFSET, TMR_CUR_CNT_OFFSET]
  · simp [apic_read, apic_read_reg, hen, EOI_OFFSET, APIC_ID_OFFSET, APIC_VERSION_OFFSET,
      TPR_OFFSET, APR_OFFSET, PPR_OFFSET, REMOTE_READ_OFFSET, LDR_OFFSET, DFR_OFFSET,
      SPURIOUS_INT_VEC_OFFSET, ESR_OFFSET, TMR_LOC_VEC_TBL_OFFSET, LINT0_VEC_TBL_OFFSET,
      LINT1_VEC_TBL_OFFSET, ERR_VEC_TBL_OFFSET, TMR_INIT_CNT_OFFSET, TMR_DIV_CFG_OFFSET,
      TMR_CUR_CNT_OFFSET]

/-- Witness for C9's amended theorem: writing 77 to 0x390 on the fresh
single-LAPIC device. -/
theorem C9_write_cur_cnt_witness :
    apic_write dev1 0 0x390 77 4 =
        some (setApic dev1 0 { apicAt dev1 0 with tmr_cur_cnt := 77 }) ∧
      apic_read { apicAt dev1 0 with tmr_cur_cnt := 77 } 0x390 4 = some 77 :=
  C9_write_cur_cnt dev1 0 77 (by decide)

/-- A last-match fold that never produced a result: the seed was empty and no
list element satisfies the predicate. -/
theorem foldl_lastMatch_eq_none (p : Nat → Prop) [DecidablePred p] :
    ∀ (l : List Nat) (acc : Option Nat),
      l.foldl (fun a i => if p i then some i else a) acc = none →
        acc = none ∧ ∀ i ∈ l, ¬ p i := by
  intro l
  induction l with
  | nil => intro acc h; simpa using h
  | cons x t ih =>
    intro acc h
    rw [List.foldl_cons] at h
    obtain ⟨hfa, ht⟩ := ih _ h
    by_cases hp : p x
    · rw [if_pos hp] at hfa; cases hfa
    · rw [if_neg hp] at hfa
      refine ⟨hfa, fun i hi => ?_⟩
      rcases List.mem_cons.mp hi with rfl | hit
      · exact hp
      · exact ht i hit

/-- A last-match fold over a list with no satisfying element returns its
seed. -/
theorem foldl_lastMatch_no_match (p : Nat → Prop) [DecidablePred p] :
    ∀ (l : List Nat) (acc : Option Nat), (∀ i ∈ l, ¬ p i) →
      l.foldl (fun a i => if p i then some i else a) acc = acc := by
  intro l
  induction l with
  | nil => intro acc _; rfl
  | cons x t ih =>
    intro acc h
    rw [List.foldl_cons, if_neg (h x (List.mem_cons_self x t)),
      ih acc (fun i hi => h i (List.mem_cons_of_mem x hi))]

/-- A last-match fold that produced `j`: either `j` is a satisfying list
element, or it was already the seed. -/
theorem foldl_lastMatch_some (p : Nat → Prop) [DecidablePred p] :
    ∀ (l : List Nat) (acc : Option Nat) (j : Nat),
      l.foldl (fun a i => if p i then some i else a) acc = some j →
        (j ∈ l ∧ p j) ∨ acc = some j := by
  intro l
  induction l with
  | nil => intro acc j h; right; simpa using h
  | cons x t ih =>
    intro acc j h
    rw [List.foldl_cons] at h
    rcases ih _ _ h with ⟨hjt, hpj⟩ | hfa
    · exact Or.inl ⟨List.mem_cons_of_mem x hjt, hpj⟩
    · by_cases hp : p x
      · rw [if_pos hp] at hfa
        obtain rfl := Option.some.inj hfa
        exact Or.inl ⟨List.mem_cons_self x t, hp⟩
      · rw [if_neg hp] at hfa
        exact Or.inr hfa

/-- `find_physical_apic` fails exactly when no LAPIC's identity register
equals the requested destination — the index-0 gap of the fast path does not
matter, because the linear scan is unconditional. -/
theorem find_physical_apic_none_iff (dev : ApicDevState) (d : Nat) :
    find_physical_apic dev d = none ↔
      ∀ i < numApics dev, (apicAt dev i).lapic_id ≠ d := by
  constructor
  · intro h
    obtain ⟨-, hall⟩ := foldl_lastMatch_eq_none (fun i => (apicAt dev i).lapic_id = d) _ _ h
    exact fun i hi => hall i (List.mem_range.mpr hi)
  · intro hall
    unfold find_physical_apic
    have hfast : (if 0 < d ∧ d < numApics dev ∧ (apicAt dev d).lapic_id = d then
        some d else none) = (none : Option Nat) := by
      rw [if_neg]
      rintro ⟨-, hd, hid⟩
      exact hall d hd hid
    rw [hfast]
    exact foldl_lastMatch_no_match (fun i => (apicAt dev i).lapic_id = d) _ _
      (fun i hi => hall i (List.mem_range.mp hi))

/-- A successful `find_physical_apic` returns an in-range index whose LAPIC
identity equals the requested destination. -/
theorem find_physical_apic_some (dev : ApicDevState) (d j : Nat)
    (h : find_physical_apic dev d = some j) :
    j < numApics dev ∧ (apicAt dev j).lapic_id = d := by
  unfold find_physical_apic at h
  rcases foldl_lastMatch_some (fun i => (apicAt dev i).lapic_id = d) _ _ _ h with
    ⟨hj, hpj⟩ | hfast
  · exact ⟨List.mem_range.mp hj, hpj⟩
  · by_cases hg : 0 < d ∧ d < numApics dev ∧ (apicAt dev d).lapic_id = d
    · rw [if_pos hg] at hfast
      obtain rfl := Option.some.inj hfast
      exact ⟨hg.2.1, hg.2.2⟩
    · rw [if_neg hg] at hfast
      cases hfast

/-- Fixed delivery with a vector above 15 enqueues the vector on the
destination's IRQ queue. -/
theorem deliver_ipi_fixed (a : ApicState) (vec dm : Nat)
    (hdm : dm = APIC_FIXED_DELIVERY ∨ dm = APIC_LOWEST_DELIVERY) (hvec : 15 < vec) :
    deliver_ipi a vec dm = some { a with irq_queue := a.irq_queue ++ [vec] } := by
  simp [deliver_ipi, hdm, add_apic_irq_entry, Nat.not_le.mpr hvec]

/-- C2: physical routing with no shorthand and fixed delivery errors exactly
when no LAPIC's identity register equals the ICR destination field, and
otherwise delivers the vector to a LAPIC whose identity equals the
destination — including a LAPIC at array index 0 or with identity 0, since
the linear search runs regardless of the fast path's `dst_idx > 0` bound. -/
theorem C2_route_physical (dev : ApicDevState) (src : Option Nat) (icr : IntCmdReg)
    (hsh : icr.dst_shorthand = APIC_SHORTHAND_NONE) (hdm : icr.dst_mode = APIC_DEST_PHYSICAL)
    (hfx : icr.del_mode = APIC_FIXED_DELIVERY) (hvec : 15 < icr.vec) :
    (route_ipi dev src icr = none ↔ ∀ i < numApics dev, (apicAt dev i).lapic_id ≠ icr.dst) ∧
      ((∃ i, i < numApics dev ∧ (apicAt dev i).lapic_id = icr.dst) →
        ∃ j, j < numApics dev ∧ (apicAt dev j).lapic_id = icr.dst ∧
          route_ipi dev src icr =
            some (setApic dev j
              { apicAt dev j with irq_queue := (apicAt dev j).irq_queue ++ [icr.vec] })) := by
  have hroute : route_ipi dev src icr = route_none_physical dev icr := by
    simp [route_ipi, hsh, hdm, APIC_SHORTHAND_NONE, APIC_DEST_PHYSICAL]
  rw [hroute]
  cases hf : find_physical_apic dev icr.dst with
  | none =>
    have hnone : route_none_physical dev icr = none := by
      simp [route_none_physical, hf]
    rw [find_physical_apic_none_iff] at hf
    constructor
    · rw [hnone]; simpa using hf
    · rintro ⟨i, hi, hid⟩
      exact absurd hid (hf i hi)
  | some j =>
    obtain ⟨hj, hid⟩ := find_physical_apic_some dev icr.dst j hf
    have hsome : route_none_physical dev icr =
        some (setApic dev j
          { apicAt dev j with irq_queue := (apicAt dev j).irq_queue ++ [icr.vec] }) := by
      simp [route_none_physical, hf, deliver_ipi_fixed _ _ _ (Or.inl hfx) hvec]
    constructor
    · rw [hsome]
      simp only [false_iff, reduceCtorEq, not_forall]
      exact ⟨j, hj, fun hne => hne hid⟩
    · intro _
      exact ⟨j, hj, hid, hsome⟩

/-- Witness for C2 on a single-LAPIC device whose LAPIC sits at index 0 with
identity 0 — exactly the configuration the fast path misses. -/
theorem C2_route_physical_witness :
    (∃ i, i < numApics dev1 ∧ (apicAt dev1 i).lapic_id = icr_phys0.dst) ∧
      (∃ j, j < numApics dev1 ∧ (apicAt dev1 j).lapic_id = icr_phys0.dst ∧
        route_ipi dev1 none icr_phys0 =
          some (setApic dev1 j
            { apicAt dev1 j with irq_queue := (apicAt dev1 j).irq_queue ++ [icr_phys0.vec] })) :=
  ⟨⟨0, by decide, by decide⟩,
   (C2_route_physical dev1 none icr_phys0 rfl rfl rfl (by decide)).2 ⟨0, by decide, by decide⟩⟩

/-- On a LAPIC with a valid destination-format model the match predicate
returns exactly `matchesMDA`. -/
theorem should_deliver_ipi_valid (a : ApicState) (mda : Nat)
    (h : dst_fmt_model a.dst_fmt = 0xf ∨ dst_fmt_model a.dst_fmt = 0x0) :
    should_deliver_ipi a mda = some (matchesMDA a mda) := by
  rcases h with h | h <;> simp [should_deliver_ipi, matchesMDA, h]

/-- Reading a list position other than the one just set is unchanged. -/
theorem getD_set_ne {α : Type} (l : List α) (i k : Nat) (a x : α) (h : k ≠ i) :
    (l.set i a).getD k x = l.getD k x := by
  induction l generalizing i k with
  | nil => rfl
  | cons b t ih =>
    cases i with
    | zero =>
      cases k with
      | zero => exact absurd rfl h
      | succ k => simp [List.set]
    | succ i =>
      cases k with
      | zero => simp [List.set]
      | succ k =>
        simp only [List.set, List.getD_cons_succ]
        exact ih i k (fun hh => h (by rw [hh]))

/-- Replacing LAPIC `j` leaves every other index of the device unchanged. -/
theorem apicAt_setApic_ne (dev : ApicDevState) (j i : Nat) (a : ApicState) (h : i ≠ j) :
    apicAt (setApic dev j a) i = apicAt dev i :=
  getD_set_ne dev.apics j i a (init_apic_state 0) h

set_option maxRecDepth 4000 in
/-- The lowest-priority arbitration scan maintains `LowestInv`: after the
first `k` LAPICs, the accumulator is `none` exactly when none of them
matches, and otherwise holds the first-encountered matcher with the smallest
task priority. -/
theorem lowest_scan_spec (dev : ApicDevState) (mda : Nat)
    (hvalid : ∀ i < numApics dev,
      dst_fmt_model (apicAt dev i).dst_fmt = 0xf ∨ dst_fmt_model (apicAt dev i).dst_fmt = 0x0) :
    ∀ k, k ≤ numApics dev →
      ∃ best, (List.range k).foldl (lowest_step dev mda) (some none) = some best ∧
        LowestInv dev mda k best := by
  intro k
  induction k with
  | zero =>
    intro _
    exact ⟨none, rfl, fun i hi => absurd hi (Nat.not_lt_zero i)⟩
  | succ k ih =>
    intro hk
    obtain ⟨best, hfold, hinv⟩ := ih (Nat.le_of_succ_le hk)
    rw [List.range_succ, List.foldl_append, hfold, List.foldl_cons, List.foldl_nil]
    have hsd : should_deliver_ipi (apicAt dev k) mda = some (matchesMDA (apicAt dev k) mda) :=
      should_deliver_ipi_valid _ _ (hvalid k hk)
    cases hm : matchesMDA (apicAt dev k) mda with
    | false =>
      refine ⟨best, by simp [lowest_step, hsd, hm], ?_⟩
      cases best with
      | none =>
        intro i hi
        rcases Nat.lt_succ_iff_lt_or_eq.mp hi with h | rfl
        · exact hinv i h
        · exact hm
      | some b =>
        obtain ⟨hb, hmb, hall, hfirst⟩ := hinv
        refine ⟨Nat.lt_succ_of_lt hb, hmb, ?_, hfirst⟩
        intro i hi hmi
        rcases Nat.lt_succ_iff_lt_or_eq.mp hi with h | rfl
        · exact hall i h hmi
        · rw [hmi] at hm; cases hm
    | true =>
      cases best with
      | none =>
        refine ⟨some k, by simp [lowest_step, hsd, hm], ?_⟩
        refine ⟨Nat.lt_succ_self k, hm, ?_, ?_⟩
        · intro i hi hmi
          rcases Nat.lt_succ_iff_lt_or_eq.mp hi with h | rfl
          · rw [hinv i h] at hmi; cases hmi
          · exact le_rfl
        · intro i hi hmi
          rw [hinv i hi] at hmi; cases hmi
      | some b =>
        obtain ⟨hb, hmb, hall, hfirst⟩ := hinv
        by_cases hlt : (apicAt dev k).task_prio < (apicAt dev b).task_prio
        · refine ⟨some k, by simp [lowest_step, hsd, hm, hlt], ?_⟩
          refine ⟨Nat.lt_succ_self k, hm, ?_, ?_⟩
          · intro i hi hmi
            rcases Nat.lt_succ_iff_lt_or_eq.mp hi with h | rfl
            · exact le_of_lt (lt_of_lt_of_le hlt (hall i h hmi))
            · exact le_rfl
          · intro i hi hmi
            exact lt_of_lt_of_le hlt (hall i hi hmi)
        · refine ⟨some b, by simp [lowest_step, hsd, hm, hlt], ?_⟩
          refine ⟨Nat.lt_succ_of_lt hb, hmb, ?_, hfirst⟩
          intro i hi hmi
          rcases Nat.lt_succ_iff_lt_or_eq.mp hi with h | rfl
          · exact hall i h hmi
          · exact Nat.le_of_not_lt hlt

/-- C6: lowest-priority logical routing with no shorthand delivers to
exactly one LAPIC — the first-encountered matcher with the smallest task
priority — leaving every other LAPIC untouched, and returns success without
delivering anything when no LAPIC matches. -/
theorem C6_route_lowest (dev : ApicDevState) (src : Option Nat) (icr : IntCmdReg)
    (hsh : icr.dst_shorthand = APIC_SHORTHAND_NONE)
    (hdm : icr.dst_mode = APIC_DEST_LOGICAL)
    (hlp : icr.del_mode = APIC_LOWEST_DELIVERY)
    (hvec : 15 < icr.vec)
    (hvalid : ∀ i < numApics dev,
      dst_fmt_model (apicAt dev i).dst_fmt = 0xf ∨ dst_fmt_model (apicAt dev i).dst_fmt = 0x0) :
    ((∀ i < numApics dev, matchesMDA (apicAt dev i) icr.dst = false) →
        route_ipi dev src icr = some dev) ∧
      ((∃ i, i < numApics dev ∧ matchesMDA (apicAt dev i) icr.dst = true) →
        ∃ j, FirstMinMatcher dev icr.dst (numApics dev) j ∧
          route_ipi dev src icr =
            some (setApic dev j
              { apicAt dev j with irq_queue := (apicAt dev j).irq_queue ++ [icr.vec] }) ∧
          ∀ i, i < numApics dev → i ≠ j →
            apicAt (setApic dev j
              { apicAt dev j with irq_queue := (apicAt dev j).irq_queue ++ [icr.vec] }) i =
              apicAt dev i) := by
  have hroute : route_ipi dev src icr = route_none_logical_lowest dev icr := by
    simp [route_ipi, hsh, hdm, hlp, APIC_SHORTHAND_NONE, APIC_DEST_LOGICAL,
      APIC_LOWEST_DELIVERY, APIC_DEST_PHYSICAL]
  obtain ⟨best, hfold, hinv⟩ := lowest_scan_spec dev icr.dst hvalid (numApics dev) le_rfl
  rw [hroute]
  unfold route_none_logical_lowest
  simp only [hfold]
  cases best with
  | none =>
    constructor
    · intro _; rfl
    · rintro ⟨i, hi, hmi⟩
      rw [hinv i hi] at hmi
      cases hmi
  | some j =>
    obtain ⟨hj, hmj, hall, hfirst⟩ := hinv
    have hdel := deliver_ipi_fixed (apicAt dev j) icr.vec icr.del_mode (Or.inr hlp) hvec
    constructor
    · intro hnone
      rw [hnone j hj] at hmj
      cases hmj
    · intro _
      refine ⟨j, ⟨hj, hmj, hall, hfirst⟩, ?_, ?_⟩
      · show (match deliver_ipi (apicAt dev j) icr.vec icr.del_mode with
              | none => none
              | some a => some (setApic dev j a)) =
            some (setApic dev j
              { apicAt dev j with irq_queue := (apicAt dev j).irq_queue ++ [icr.vec] })
        rw [hdel]
      · intro i _ hne
        exact apicAt_setApic_ne dev j i _ hne

/-- Witness for C6 on two flat-mode LAPICs that both match MDA 0x01 with
task priority 0: the one at the lower index receives the vector and the
other is untouched. -/
theorem C6_route_lowest_witness :
    (∃ i, i < numApics dev6 ∧ matchesMDA (apicAt dev6 i) icr_low1.dst = true) ∧
      (∃ j, FirstMinMatcher dev6 icr_low1.dst (numApics dev6) j ∧
        route_ipi dev6 none icr_low1 =
          some (setApic dev6 j
            { apicAt dev6 j with irq_queue := (apicAt dev6 j).irq_queue ++ [icr_low1.vec] }) ∧
        ∀ i, i < numApics dev6 → i ≠ j →
          apicAt (setApic dev6 j
            { apicAt dev6 j with irq_queue := (apicAt dev6 j).irq_queue ++ [icr_low1.vec] }) i =
            apicAt dev6 i) :=
  ⟨⟨0, by decide, by decide⟩,
   (C6_route_lowest dev6 none icr_low1 rfl rfl rfl (by decide) (by decide)).2
     ⟨0, by decide, by decide⟩⟩

/-- C7: when the elapsed ticks `cycles >> shift` reach the current count on a
periodic timer with a positive initial count (unmasked, vector above 15,
queue empty, no missed-count overflow), exactly one timer interrupt is
injected (the timer vector alone ends up on the queue), the counter reloads
to `initial − (r mod initial)` with `r = ticks − current`, and `missed_ints`
grows by `r / initial`. -/
theorem C7_timer_periodic (a : ApicState) (cycles sh : Nat)
    (hinit : 0 < a.tmr_init_cnt)
    (hper : lvt_tmr_mode a.tmr_vec_tbl = APIC_TMR_PERIODIC)
    (hdiv : shiftOfDiv (a.tmr_div_cfg % 256) = some sh)
    (hticks : a.tmr_cur_cnt ≤ cycles >>> sh)
    (hmask : lvt_mask a.tmr_vec_tbl = false)
    (hvec : 15 < lvt_vec a.tmr_vec_tbl)
    (hq : a.irq_queue = [])
    (hov : a.missed_ints + (cycles >>> sh - a.tmr_cur_cnt) / a.tmr_init_cnt < 2 ^ 32) :
    (apic_update_time a cycles).tmr_cur_cnt =
        a.tmr_init_cnt - (cycles >>> sh - a.tmr_cur_cnt) % a.tmr_init_cnt ∧
      (apic_update_time a cycles).missed_ints =
        a.missed_ints + (cycles >>> sh - a.tmr_cur_cnt) / a.tmr_init_cnt ∧
      (apic_update_time a cycles).irq_queue = [lvt_vec a.tmr_vec_tbl] := by
  have hguard : ¬ (a.tmr_init_cnt = 0 ∨
      (lvt_tmr_mode a.tmr_vec_tbl = APIC_TMR_ONESHOT ∧ a.tmr_cur_cnt = 0)) := by
    rw [hper]
    simp only [APIC_TMR_ONESHOT, APIC_TMR_PERIODIC]
    omega
  have hinj : apic_inject_timer_intr { a with tmr_cur_cnt := 0 } =
      { a with tmr_cur_cnt := 0, irq_queue := [lvt_vec a.tmr_vec_tbl] } := by
    simp [apic_inject_timer_intr, apic_intr_pending, drain_irq_entries, hq, drain_loop,
      activate_internal_irq, hmask, APIC_FIXED_DELIVERY, add_apic_irq_entry,
      Nat.not_le.mpr hvec]
  have hov' : a.missed_ints + (cycles >>> sh - a.tmr_cur_cnt) / a.tmr_init_cnt < 4294967296 := by
    simpa using hov
  simp only [apic_update_time, hdiv]
  rw [if_neg hguard, if_neg (Nat.not_lt.mpr hticks), hinj, hper]
  simp [APIC_TMR_PERIODIC, Nat.mod_eq_of_lt hov']

/-- Witness for C7: divide-by-1 (configuration 0xB, shift 0), initial and
current counts 1000, 3500 elapsed cycles — the counter reloads to 500, the
missed count rises by 2 and the timer vector 0x20 is enqueued once. -/
theorem C7_timer_periodic_witness :
    (apic_update_time tapic 3500).tmr_cur_cnt =
        tapic.tmr_init_cnt - (3500 >>> 0 - tapic.tmr_cur_cnt) % tapic.tmr_init_cnt ∧
      (apic_update_time tapic 3500).missed_ints =
        tapic.missed_ints + (3500 >>> 0 - tapic.tmr_cur_cnt) / tapic.tmr_init_cnt ∧
      (apic_update_time tapic 3500).irq_queue = [lvt_vec tapic.tmr_vec_tbl] :=
  C7_timer_periodic tapic 3500 0 (by decide) (by decide) (by decide) (by decide) (by decide)
    (by decide) rfl (by decide)
